import Mathlib

/-!
Shallow embedding of the marksheet-extraction service's data model and of its
confidence-calibration and batch pipelines, translated from `models.py`,
`gemini_extractor.py`, `file_processor.py`, `config.py` and `api.py`.
Python floats are modelled as rationals (`ℚ`); Python lists as `List`;
Python dicts of strings as association lists.  The external multimodal
model call is an input-determined oracle: each upload carries the document
the external service would return for it (`none` when the call raises).
-/

namespace Marksheet

/-- Field type enumeration, from `models.py` (`class FieldType(str, Enum)`). -/
inductive FieldType where
  | STRING
  | NUMBER
  | DATE
  | GRADE
deriving DecidableEq, Repr

/-- Value of an extracted field: `Union[str, int, float, None]` in `models.py`
(int and float both map to `ℚ`). -/
inductive FieldValue where
  | str (s : String)
  | num (q : ℚ)
  | null
deriving DecidableEq, Repr

/-- Bounding box, from `models.py`: all coordinates optional, confidence
optional and validated to `[0,1]`. -/
structure BoundingBox where
  x : Option ℚ
  y : Option ℚ
  width : Option ℚ
  height : Option ℚ
  confidence : Option ℚ
deriving DecidableEq, Repr

/-- A single extracted field, from `models.py` (`class ExtractedField`).
`confidence` is declared `float = Field(ge=0.0, le=1.0)`: required
(non-optional), hence `ℚ` and not `Option ℚ` here. -/
structure ExtractedField where
  value : FieldValue
  confidence : ℚ
  field_type : FieldType
  bounding_box : Option BoundingBox
deriving DecidableEq, Repr

/-- Pydantic validation performed when an `ExtractedField` is constructed:
construction succeeds exactly when the supplied confidence passes the
`ge=0.0, le=1.0` bounds; otherwise pydantic raises a `ValidationError`,
modelled as `none`. -/
def ExtractedField.validate (v : FieldValue) (c : ℚ) (t : FieldType)
    (bb : Option BoundingBox) : Option ExtractedField :=
  if 0 ≤ c ∧ c ≤ 1 then some ⟨v, c, t, bb⟩ else none

/-- Candidate details section, from `models.py`: nine optional fields, in
declaration order. -/
structure CandidateDetails where
  name : Option ExtractedField
  father_name : Option ExtractedField
  mother_name : Option ExtractedField
  roll_number : Option ExtractedField
  registration_number : Option ExtractedField
  date_of_birth : Option ExtractedField
  exam_year : Option ExtractedField
  board_university : Option ExtractedField
  institution : Option ExtractedField
deriving DecidableEq, Repr

/-- One subject-marks group, from `models.py`: `subject` required, the rest
optional. -/
structure SubjectMarks where
  subject : ExtractedField
  max_marks : Option ExtractedField
  max_credits : Option ExtractedField
  obtained_marks : Option ExtractedField
  obtained_credits : Option ExtractedField
  grade : Option ExtractedField
deriving DecidableEq, Repr

/-- Overall result section, from `models.py`: seven optional fields. -/
structure OverallResult where
  total_marks : Option ExtractedField
  max_total_marks : Option ExtractedField
  percentage : Option ExtractedField
  cgpa : Option ExtractedField
  grade : Option ExtractedField
  division : Option ExtractedField
  result_status : Option ExtractedField
deriving DecidableEq, Repr

/-- Issue details section, from `models.py`. -/
structure IssueDetails where
  issue_date : Option ExtractedField
  issue_place : Option ExtractedField
deriving DecidableEq, Repr

/-- The per-call calibration report built by
`GeminiMarksheetExtractor.calibrate_confidence`.  In the Python source this
is a dict; the `original_confidence` and `calibrated_confidence` sub-dicts
hold at most the single key `"average"`, modelled as `Option ℚ` (`none` =
key absent). -/
structure CalibrationInfo where
  method : String
  original_confidence : Option ℚ
  calibrated_confidence : Option ℚ
  calibration_factor : ℚ
  sample_size : ℕ
deriving DecidableEq, Repr

/-- The full document record, from `models.py`
(`class MarksheetExtractionResponse`).  `extraction_metadata` is a
string-to-string association list standing for the Python dict. -/
structure MarksheetExtractionResponse where
  candidate_details : CandidateDetails
  subject_marks : List SubjectMarks
  overall_result : OverallResult
  issue_details : IssueDetails
  extraction_metadata : List (String × String)
  confidence_calibration : Option CalibrationInfo
deriving DecidableEq, Repr

/-! ### Confidence collection (`_collect_confidences`)

The Python traversal walks `__dict__` values in field-declaration order:
an `ExtractedField` contributes its confidence (always present, since the
model requires it); a list is traversed element-wise; a nested pydantic
model is recursed into; `None`, plain dicts and primitives are skipped.
Note the traversal does not descend into an `ExtractedField` itself, so
bounding-box confidences are never collected. -/

/-- Confidence contributed by one optional field slot. -/
def optConf (f : Option ExtractedField) : List ℚ :=
  match f with
  | some g => [g.confidence]
  | none => []

/-- Confidences of the candidate-details section, in declaration order. -/
def CandidateDetails.collect (cd : CandidateDetails) : List ℚ :=
  optConf cd.name ++ optConf cd.father_name ++ optConf cd.mother_name ++
  optConf cd.roll_number ++ optConf cd.registration_number ++
  optConf cd.date_of_birth ++ optConf cd.exam_year ++
  optConf cd.board_university ++ optConf cd.institution

/-- Confidences of one subject-marks group, in declaration order. -/
def SubjectMarks.collect (sm : SubjectMarks) : List ℚ :=
  [sm.subject.confidence] ++ optConf sm.max_marks ++ optConf sm.max_credits ++
  optConf sm.obtained_marks ++ optConf sm.obtained_credits ++ optConf sm.grade

/-- Confidences of the overall-result section, in declaration order. -/
def OverallResult.collect (o : OverallResult) : List ℚ :=
  optConf o.total_marks ++ optConf o.max_total_marks ++ optConf o.percentage ++
  optConf o.cgpa ++ optConf o.grade ++ optConf o.division ++
  optConf o.result_status

/-- Confidences of the issue-details section, in declaration order. -/
def IssueDetails.collect (i : IssueDetails) : List ℚ :=
  optConf i.issue_date ++ optConf i.issue_place

/-- All confidences of a document, in the order `_collect_confidences`
produces them (top-level `__dict__` order: candidate details, subject marks,
overall result, issue details; the metadata dict and the optional
calibration dict have no `__dict__` and are skipped). -/
def MarksheetExtractionResponse.collect
    (d : MarksheetExtractionResponse) : List ℚ :=
  d.candidate_details.collect ++
  (d.subject_marks.map SubjectMarks.collect).flatten ++
  d.overall_result.collect ++ d.issue_details.collect

/-! ### Calibration rescaling (`_apply_calibration`) -/

/-- Rescaling of one field: `value.confidence = min(1.0, value.confidence * factor)`. -/
def ExtractedField.calibrated (f : ExtractedField) (factor : ℚ) :
    ExtractedField :=
  { f with confidence := min 1 (f.confidence * factor) }

/-- Rescaling of one optional field slot. -/
def optCal (f : Option ExtractedField) (factor : ℚ) : Option ExtractedField :=
  f.map (fun g => g.calibrated factor)

/-- Rescaling of the candidate-details section. -/
def CandidateDetails.apply_calibration (cd : CandidateDetails) (factor : ℚ) :
    CandidateDetails where
  name := optCal cd.name factor
  father_name := optCal cd.father_name factor
  mother_name := optCal cd.mother_name factor
  roll_number := optCal cd.roll_number factor
  registration_number := optCal cd.registration_number factor
  date_of_birth := optCal cd.date_of_birth factor
  exam_year := optCal cd.exam_year factor
  board_university := optCal cd.board_university factor
  institution := optCal cd.institution factor

/-- Rescaling of one subject-marks group. -/
def SubjectMarks.apply_calibration (sm : SubjectMarks) (factor : ℚ) :
    SubjectMarks where
  subject := sm.subject.calibrated factor
  max_marks := optCal sm.max_marks factor
  max_credits := optCal sm.max_credits factor
  obtained_marks := optCal sm.obtained_marks factor
  obtained_credits := optCal sm.obtained_credits factor
  grade := optCal sm.grade factor

/-- Rescaling of the overall-result section. -/
def OverallResult.apply_calibration (o : OverallResult) (factor : ℚ) :
    OverallResult where
  total_marks := optCal o.total_marks factor
  max_total_marks := optCal o.max_total_marks factor
  percentage := optCal o.percentage factor
  cgpa := optCal o.cgpa factor
  grade := optCal o.grade factor
  division := optCal o.division factor
  result_status := optCal o.result_status factor

/-- Rescaling of the issue-details section. -/
def IssueDetails.apply_calibration (i : IssueDetails) (factor : ℚ) :
    IssueDetails where
  issue_date := optCal i.issue_date factor
  issue_place := optCal i.issue_place factor

/-- In-place rescaling of a whole document
(`GeminiMarksheetExtractor._apply_calibration`), returned functionally. -/
def MarksheetExtractionResponse.apply_calibration
    (d : MarksheetExtractionResponse) (factor : ℚ) :
    MarksheetExtractionResponse :=
  { d with
    candidate_details := d.candidate_details.apply_calibration factor
    subject_marks := d.subject_marks.map (fun sm => sm.apply_calibration factor)
    overall_result := d.overall_result.apply_calibration factor
    issue_details := d.issue_details.apply_calibration factor }

/-! ### The calibrator (`calibrate_confidence`) -/

/-- Exact arithmetic mean (`statistics.mean`); never applied to an empty
list on the paths the source takes. -/
def meanQ (l : List ℚ) : ℚ := l.sum / l.length

/-- Python slice `l[-n:]`: the last `n` elements (all of `l` when shorter). -/
def takeLast (n : ℕ) (l : List ℚ) : List ℚ := l.drop (l.length - n)

/-- The history update at the end of `calibrate_confidence`:
`self.confidence_history.extend(all_confidences)` followed by truncation to
the last 1000 entries when the length exceeds 1000. -/
def updateHistory (h cur : List ℚ) : List ℚ :=
  let e := h ++ cur
  if e.length > 1000 then takeLast 1000 e else e

/-- Result of one `calibrate_confidence` call: the report, the (possibly
rescaled) document, and the calibrator's new history.  In Python the
document and the history are mutated in place; here they are returned. -/
structure CalResult where
  info : CalibrationInfo
  doc : MarksheetExtractionResponse
  history : List ℚ
deriving DecidableEq, Repr

/-- Translation of `GeminiMarksheetExtractor.calibrate_confidence`
(gemini_extractor.py lines 190-223).  `history` is the calibrator state
`self.confidence_history` at the time of the call.  Note in the source the
"calibrated average" is `statistics.mean(all_confidences)` on the snapshot
list, which `_apply_calibration` does not mutate. -/
def calibrate_confidence (history : List ℚ)
    (extracted_data : MarksheetExtractionResponse) : CalResult :=
  let all_confidences := extracted_data.collect
  if all_confidences.isEmpty then
    { info := { method := "Historical Average Calibration"
                original_confidence := none
                calibrated_confidence := none
                calibration_factor := 1
                sample_size := history.length }
      doc := extracted_data
      history := history }
  else
    let avg_confidence := meanQ all_confidences
    if history.length > 10 then
      let historical_avg := meanQ (takeLast 50 history)
      let calibration_factor :=
        if avg_confidence > 0 then historical_avg / avg_confidence else 1
      { info := { method := "Historical Average Calibration"
                  original_confidence := some avg_confidence
                  calibrated_confidence := some (meanQ all_confidences)
                  calibration_factor := calibration_factor
                  sample_size := history.length }
        doc := extracted_data.apply_calibration calibration_factor
        history := updateHistory history all_confidences }
    else
      { info := { method := "Historical Average Calibration"
                  original_confidence := some avg_confidence
                  calibrated_confidence := none
                  calibration_factor := 1
                  sample_size := history.length }
        doc := extracted_data
        history := updateHistory history all_confidences }

/-- History of a calibrator that started empty and processed the given
documents in order. -/
def runHistory (docs : List MarksheetExtractionResponse) : List ℚ :=
  docs.foldl (fun h d => (calibrate_confidence h d).history) []

/-! ### Concrete fixtures used by witnesses and counterexamples -/

/-- Candidate details with every optional field absent
(pydantic defaults, as in `CandidateDetails()`). -/
def CandidateDetails.empty : CandidateDetails :=
  ⟨none, none, none, none, none, none, none, none, none⟩

/-- Overall result with every optional field absent. -/
def OverallResult.empty : OverallResult :=
  ⟨none, none, none, none, none, none, none⟩

/-- Issue details with every optional field absent. -/
def IssueDetails.empty : IssueDetails := ⟨none, none⟩

/-- A string field with the given confidence and no bounding box. -/
def sampleField (c : ℚ) : ExtractedField :=
  ⟨FieldValue.str "A", c, FieldType.STRING, none⟩

/-- A document whose only field record is the candidate name, carrying the
given confidence; its collected-confidence list is `[c]`. -/
def sampleDoc (c : ℚ) : MarksheetExtractionResponse :=
  { candidate_details := { CandidateDetails.empty with name := some (sampleField c) }
    subject_marks := []
    overall_result := OverallResult.empty
    issue_details := IssueDetails.empty
    extraction_metadata := []
    confidence_calibration := none }

/-- A document with all field records absent: nothing to collect. -/
def nullDoc : MarksheetExtractionResponse :=
  { candidate_details := CandidateDetails.empty
    subject_marks := []
    overall_result := OverallResult.empty
    issue_details := IssueDetails.empty
    extraction_metadata := []
    confidence_calibration := none }

/-- Eleven past observations of 0.5 — enough history to leave warm-up. -/
def hist11 : List ℚ := List.replicate 11 (1/2)

/-! ### HTTP layer (`api.py`, `file_processor.py`, `config.py`)

An uploaded file is modelled by its lowercased extension (the result of
`os.path.splitext(file.filename)[1].lower()`; the filename string itself
is not modelled, the extension stands in for it where the source stores a
filename), its payload size (`len(file_content)`), and the outcome the
external normalize-and-extract pipeline would produce for its content:
`some doc` when `FileProcessor.process_file` plus the Gemini call succeed
with that document, `none` when any step raises.  The extractor is taken
as configured (`GEMINI_API_KEY` present).  HTTP failures are `Except.error`
carrying the status code; wall-clock `processing_time` is not modelled. -/

/-- Allowed upload extensions, from `config.py`. -/
def ALLOWED_EXTENSIONS : List String := [".jpg", ".jpeg", ".png", ".pdf", ".webp"]

/-- Maximum upload size in bytes, from `config.py` (10 MB). -/
def MAX_FILE_SIZE : ℕ := 10 * 1024 * 1024

/-- Size validation, from `FileProcessor.validate_file_size`:
`len(file_content) <= max_size`. -/
def validate_file_size (file_size max_size : ℕ) : Bool :=
  file_size ≤ max_size

/-- One uploaded file together with the external pipeline's outcome for
its content. -/
structure UploadFile where
  extension : String
  size : ℕ
  model_doc : Option MarksheetExtractionResponse
deriving Repr

instance : Inhabited UploadFile := ⟨{ extension := "", size := 0, model_doc := none }⟩

/-- Whether a status code is a client error (4xx). -/
def isClientError (code : ℕ) : Bool := 400 ≤ code && code < 500

/-- Dict lookup (`d.get(k)`) on a string dict. -/
def metaGet (m : List (String × String)) (k : String) : Option String :=
  (m.find? (fun p => p.1 == k)).map (fun p => p.2)

/-- Dict assignment of one key, keeping insertion order as Python does:
an existing key is overwritten in place, a new key is appended. -/
def dictSet (m : List (String × String)) (k v : String) :
    List (String × String) :=
  if m.any (fun p => p.1 == k) then
    m.map (fun p => if p.1 == k then (k, v) else p)
  else m ++ [(k, v)]

/-- Dict update (`d.update(kvs)`). -/
def dictUpdate (m kvs : List (String × String)) : List (String × String) :=
  kvs.foldl (fun acc kv => dictSet acc kv.1 kv.2) m

/-- The per-file error placeholder `batch_extract` builds when processing
or extraction raises (gemini_extractor.py lines 271-279). -/
def error_response (err : String) : MarksheetExtractionResponse :=
  { candidate_details := CandidateDetails.empty
    subject_marks := []
    overall_result := OverallResult.empty
    issue_details := IssueDetails.empty
    extraction_metadata := [("error", err), ("status", "failed")]
    confidence_calibration := none }

/-- `GeminiMarksheetExtractor.batch_extract`: process the already-validated
files in order, sharing (and threading) the calibrator history; a file
whose pipeline raises contributes an error placeholder in its position
instead of aborting the batch. -/
def batch_extract (history : List ℚ) (files : List UploadFile) :
    List MarksheetExtractionResponse × List ℚ :=
  match files with
  | [] => ([], history)
  | f :: rest =>
    match f.model_doc with
    | some extracted_data =>
      let r := calibrate_confidence history extracted_data
      let tail := batch_extract r.history rest
      ({ r.doc with confidence_calibration := some r.info } :: tail.1, tail.2)
    | none =>
      let tail := batch_extract history rest
      (error_response "processing failed" :: tail.1, tail.2)

/-- The validation-failure placeholder the batch endpoint builds inline
(api.py lines 166-200): empty sections plus failure metadata. -/
def batch_validation_error (f : UploadFile) (err : String) :
    MarksheetExtractionResponse :=
  { candidate_details := CandidateDetails.empty
    subject_marks := []
    overall_result := OverallResult.empty
    issue_details := IssueDetails.empty
    extraction_metadata := [("filename", f.extension), ("error", err),
                            ("status", "failed")]
    confidence_calibration := none }

/-- The batch endpoint's validation loop: returns the failure placeholders
(appended to `results` as the loop runs, hence in input order), the count
of validation failures, and the files that passed validation, in input
order. -/
def validateLoop (files : List UploadFile) :
    List MarksheetExtractionResponse × ℕ × List UploadFile :=
  match files with
  | [] => ([], 0, [])
  | f :: rest =>
    let tail := validateLoop rest
    if f.extension ∉ ALLOWED_EXTENSIONS then
      (batch_validation_error f ("Unsupported file type: " ++ f.extension)
        :: tail.1, tail.2.1 + 1, tail.2.2)
    else if ¬ validate_file_size f.size MAX_FILE_SIZE then
      (batch_validation_error f "File size exceeds maximum allowed size of 10 MB"
        :: tail.1, tail.2.1 + 1, tail.2.2)
    else
      (tail.1, tail.2.1, f :: tail.2.2)

/-- The metadata enrichment the batch endpoint performs on the i-th batch
result (api.py lines 216-222): note it reads the filename from `files[i]`
— the original request list — while the i-th batch result came from the
i-th *validated* file. -/
def tagResult (files valids : List UploadFile) (ibb : Bool) (i : ℕ)
    (r : MarksheetExtractionResponse) : MarksheetExtractionResponse :=
  if i < files.length then
    { r with extraction_metadata :=
        (dictUpdate r.extraction_metadata
          [("filename", ((files.drop i).headI.extension)),
           ("file_size", toString ((valids.drop i).headI.size)),
           ("include_bounding_boxes", toString ibb),
           ("api_key_used", "True"),
           ("batch_processing", "True")]) }
  else r

/-- Metadata enrichment over the whole batch-result list. -/
def tagResults (files valids : List UploadFile) (ibb : Bool)
    (rs : List MarksheetExtractionResponse) :
    List MarksheetExtractionResponse :=
  rs.mapIdx (fun i r => tagResult files valids ibb i r)

/-- The endpoint's per-result failure test:
`result.extraction_metadata.get("status") != "failed"` negated. -/
def isFailedResult (r : MarksheetExtractionResponse) : Bool :=
  metaGet r.extraction_metadata "status" == some "failed"

/-- Response of the batch endpoint (`BatchExtractionResponse` in
`models.py`; `processing_time` omitted: wall-clock time). -/
structure BatchExtractionResponse where
  results : List MarksheetExtractionResponse
  total_processed : ℕ
  successful : ℕ
  failed : ℕ
deriving Repr

/-- Translation of the `/batch-extract` endpoint
(`batch_extract_marksheets`, api.py lines 159-236), threading the
calibrator history.  Validation-failure placeholders are appended to
`results` during the validation loop; the batch results for the files
that passed validation are appended only afterwards. -/
def batch_extract_marksheets (history : List ℚ) (files : List UploadFile)
    (include_bounding_boxes : Bool) :
    Except ℕ (BatchExtractionResponse × List ℚ) :=
  if files.length > 10 then Except.error 400
  else
    let v := validateLoop files
    if v.2.2.isEmpty then
      Except.ok ({ results := v.1
                   total_processed := files.length
                   successful := 0
                   failed := v.2.1 }, history)
    else
      let b := batch_extract history v.2.2
      let tagged := tagResults files v.2.2 include_bounding_boxes b.1
      Except.ok ({ results := v.1 ++ tagged
                   total_processed := files.length
                   successful :=
                     (tagged.filter (fun r => ¬ isFailedResult r)).length
                   failed :=
                     v.2.1 + (tagged.filter (fun r => isFailedResult r)).length },
                 b.2)

/-- Translation of the single-file `/extract` endpoint
(`extract_marksheet`, api.py lines 74-117).  The boolean in the result
records whether the external pipeline (file processing plus model call)
was reached.  Order of checks as in the source: extension (outside the
try block, a direct HTTP 400), then size, then the pipeline.  The size
failure raises `HTTPException(400)` *inside* the try block; `HTTPException`
is not a `ValueError`, so the blanket `except Exception` handler at
api.py line 116 catches it and re-raises `HTTPException(500, "Internal
server error: ...")` — the request therefore surfaces as HTTP 500.  A
pipeline `ValueError` is caught by the `except ValueError` handler and
becomes HTTP 400. -/
def extract_marksheet (history : List ℚ) (file : UploadFile)
    (include_bounding_boxes : Bool) :
    Except ℕ (MarksheetExtractionResponse × List ℚ) × Bool :=
  if file.extension ∉ ALLOWED_EXTENSIONS then (Except.error 400, false)
  else if ¬ validate_file_size file.size MAX_FILE_SIZE then
    (Except.error 500, false)
  else
    match file.model_doc with
    | none => (Except.error 400, true)
    | some extracted_data =>
      let r := calibrate_confidence history extracted_data
      (Except.ok ({ r.doc with
          confidence_calibration := some r.info
          extraction_metadata :=
            [("filename", file.extension),
             ("file_size", toString file.size),
             ("processing_status", "success"),
             ("include_bounding_boxes", toString include_bounding_boxes),
             ("api_key_used", "False")] }, r.history), true)

/-! ### Batch fixtures for C6 -/

/-- First file of the 3-file scenario: valid, extraction succeeds. -/
def goodFile1 : UploadFile :=
  { extension := ".jpg", size := 100, model_doc := some (sampleDoc (9/10)) }

/-- Second file of the 3-file scenario: unsupported extension. -/
def badFile2 : UploadFile :=
  { extension := ".txt", size := 100, model_doc := some (sampleDoc (9/10)) }

/-- Third file of the 3-file scenario: valid, extraction succeeds. -/
def goodFile3 : UploadFile :=
  { extension := ".png", size := 100, model_doc := some (sampleDoc (4/5)) }

/-- The claim's scenario: a batch of three files whose second member has
an unsupported extension. -/
def scenarioFiles : List UploadFile := [goodFile1, badFile2, goodFile3]

/-- The batch response for the scenario, starting from an empty history. -/
def scenarioOut : BatchExtractionResponse :=
  match batch_extract_marksheets [] scenarioFiles false with
  | Except.ok (resp, _) => resp
  | Except.error _ =>
    { results := [], total_processed := 0, successful := 0, failed := 0 }

/-- An upload with an allowed extension but a payload one byte over the
limit. -/
def bigFile : UploadFile :=
  { extension := ".jpg", size := MAX_FILE_SIZE + 1, model_doc := none }

end Marksheet

namespace Marksheet

/-! ### Claim theorems: the calibrator -/

/-- C1: with history length at most 10 the call is in the warm-up period —
the document is returned with every confidence numerically unchanged, the
report's calibration factor is 1, and the observed average is still
recorded whenever at least one confidence was collected. -/
theorem warmup_leaves_document_unchanged (history : List ℚ)
    (d : MarksheetExtractionResponse) (hlen : history.length ≤ 10) :
    (calibrate_confidence history d).doc = d ∧
    (calibrate_confidence history d).info.calibration_factor = 1 ∧
    (d.collect ≠ [] →
      (calibrate_confidence history d).info.original_confidence =
        some (meanQ d.collect)) := by
  have h10 : ¬ history.length > 10 := by omega
  by_cases hE : d.collect.isEmpty
  · have hnil : d.collect = [] := List.isEmpty_iff.mp hE
    refine ⟨?_, ?_, ?_⟩ <;> simp [calibrate_confidence, hE, hnil]
  · refine ⟨?_, ?_, ?_⟩ <;> simp [calibrate_confidence, hE, h10]

/-- Witness for C1 at the empty history and a one-field document. -/
theorem warmup_leaves_document_unchanged_witness :
    (calibrate_confidence [] (sampleDoc (9/10))).doc = sampleDoc (9/10) ∧
    (calibrate_confidence [] (sampleDoc (9/10))).info.calibration_factor = 1 ∧
    (calibrate_confidence [] (sampleDoc (9/10))).info.original_confidence =
      some (meanQ (sampleDoc (9/10)).collect) := by
  have h := warmup_leaves_document_unchanged [] (sampleDoc (9/10)) (by decide)
  exact ⟨h.1, h.2.1, h.2.2 (by decide)⟩

/-- C2: past warm-up (history length strictly greater than 10) and with a
non-empty collected-confidence list, the reported calibration factor is
`mean(last 50 history entries) / mean(current confidences)` when the
current mean is strictly positive, and 1 otherwise. -/
theorem calibration_factor_formula (history : List ℚ)
    (d : MarksheetExtractionResponse) (hne : d.collect ≠ [])
    (hlen : history.length > 10) :
    (calibrate_confidence history d).info.calibration_factor =
      if meanQ d.collect > 0
      then meanQ (takeLast 50 history) / meanQ d.collect
      else 1 := by
  have hE : ¬ d.collect.isEmpty := by simpa using hne
  simp [calibrate_confidence, hE, hlen]

/-- Witness for C2 at eleven history entries of 0.5 and a single observed
confidence 0.8. -/
theorem calibration_factor_formula_witness :
    (calibrate_confidence hist11 (sampleDoc (4/5))).info.calibration_factor =
      if meanQ (sampleDoc (4/5)).collect > 0
      then meanQ (takeLast 50 hist11) / meanQ (sampleDoc (4/5)).collect
      else 1 :=
  calibration_factor_formula hist11 (sampleDoc (4/5)) (by decide) (by decide)

/-- C5 counterexample: with history `[0.5] * 11` and one observed
confidence 0.8, the factor is 0.625 but the recorded "calibrated average"
is 0.8 (the unscaled snapshot mean), not `0.8 * 0.625 = 0.5` as the claim
predicts — `statistics.mean(all_confidences)` is taken on the snapshot
list, which the in-place rescaling does not touch. -/
theorem calibrated_average_not_scaled :
    (calibrate_confidence hist11 (sampleDoc (4/5))).info.calibrated_confidence ≠
      some (meanQ (sampleDoc (4/5)).collect *
        (calibrate_confidence hist11 (sampleDoc (4/5))).info.calibration_factor) := by
  have hco : (sampleDoc (4/5 : ℚ)).collect = [4/5] := rfl
  have hmean : meanQ [(4/5 : ℚ)] = 4/5 := by norm_num [meanQ]
  have hhist : meanQ (takeLast 50 hist11) = 1/2 := by
    norm_num [takeLast, hist11, meanQ, List.sum_replicate, nsmul_eq_mul]
  have hlen : hist11.length = 11 := by norm_num [hist11]
  simp only [calibrate_confidence, hco, hmean, hhist, hlen]
  norm_num

/-- C5 amended: past warm-up with a non-empty collected list, the recorded
"calibrated average" equals the plain mean of the pre-rescale snapshot —
no factor applied and no re-read of the mutated tree. -/
theorem calibrated_average_is_snapshot_mean (history : List ℚ)
    (d : MarksheetExtractionResponse) (hne : d.collect ≠ [])
    (hlen : history.length > 10) :
    (calibrate_confidence history d).info.calibrated_confidence =
      some (meanQ d.collect) := by
  have hE : ¬ d.collect.isEmpty := by simpa using hne
  simp [calibrate_confidence, hE, hlen]

/-- Witness for the amended C5. -/
theorem calibrated_average_is_snapshot_mean_witness :
    (calibrate_confidence hist11 (sampleDoc (4/5))).info.calibrated_confidence =
      some (meanQ (sampleDoc (4/5)).collect) :=
  calibrated_average_is_snapshot_mean hist11 (sampleDoc (4/5)) (by decide) (by decide)

/-- C7: when nothing can be collected from the document the call returns a
report whose sample size is the history length, whose factor is the no-op
1, and with no "average" recorded on either side; the embedding is total,
so no exception is possible. -/
theorem empty_document_report (history : List ℚ)
    (d : MarksheetExtractionResponse) (hnil : d.collect = []) :
    (calibrate_confidence history d).info.sample_size = history.length ∧
    (calibrate_confidence history d).info.calibration_factor = 1 ∧
    (calibrate_confidence history d).info.original_confidence = none ∧
    (calibrate_confidence history d).info.calibrated_confidence = none := by
  have hE : d.collect.isEmpty := by simp [hnil]
  refine ⟨?_, ?_, ?_, ?_⟩ <;> simp [calibrate_confidence, hE]

/-- Witness for C7 at the all-null document. -/
theorem empty_document_report_witness :
    (calibrate_confidence hist11 nullDoc).info.sample_size = hist11.length ∧
    (calibrate_confidence hist11 nullDoc).info.calibration_factor = 1 ∧
    (calibrate_confidence hist11 nullDoc).info.original_confidence = none ∧
    (calibrate_confidence hist11 nullDoc).info.calibrated_confidence = none :=
  empty_document_report hist11 nullDoc (by decide)

/-- C9: when nothing can be collected the calibrator's history is left
entirely unchanged — the empty-current call neither appends nor
truncates. -/
theorem empty_document_preserves_history (history : List ℚ)
    (d : MarksheetExtractionResponse) (hnil : d.collect = []) :
    (calibrate_confidence history d).history = history := by
  have hE : d.collect.isEmpty := by simp [hnil]
  simp [calibrate_confidence, hE]

/-- Witness for C9 at the all-null document. -/
theorem empty_document_preserves_history_witness :
    (calibrate_confidence hist11 nullDoc).history = hist11 :=
  empty_document_preserves_history hist11 nullDoc (by decide)

/-! ### Rescaling commutes with collection -/

/-- Rescaling one optional slot rescales its contributed confidence. -/
theorem optConf_optCal (f : Option ExtractedField) (factor : ℚ) :
    optConf (optCal f factor) = (optConf f).map (fun c => min 1 (c * factor)) := by
  cases f <;> rfl

/-- Collection after rescaling the candidate-details section. -/
theorem candidateDetails_collect_apply (cd : CandidateDetails) (factor : ℚ) :
    (cd.apply_calibration factor).collect =
      cd.collect.map (fun c => min 1 (c * factor)) := by
  simp [CandidateDetails.collect, CandidateDetails.apply_calibration,
    optConf_optCal]

/-- Collection after rescaling one subject-marks group. -/
theorem subjectMarks_collect_apply (sm : SubjectMarks) (factor : ℚ) :
    (sm.apply_calibration factor).collect =
      sm.collect.map (fun c => min 1 (c * factor)) := by
  simp [SubjectMarks.collect, SubjectMarks.apply_calibration, optConf_optCal,
    ExtractedField.calibrated]

/-- Collection after rescaling the overall-result section. -/
theorem overallResult_collect_apply (o : OverallResult) (factor : ℚ) :
    (o.apply_calibration factor).collect =
      o.collect.map (fun c => min 1 (c * factor)) := by
  simp [OverallResult.collect, OverallResult.apply_calibration, optConf_optCal]

/-- Collection after rescaling the issue-details section. -/
theorem issueDetails_collect_apply (i : IssueDetails) (factor : ℚ) :
    (i.apply_calibration factor).collect =
      i.collect.map (fun c => min 1 (c * factor)) := by
  simp [IssueDetails.collect, IssueDetails.apply_calibration, optConf_optCal]

/-- Collection after rescaling every subject-marks group. -/
theorem flatten_collect_apply (l : List SubjectMarks) (factor : ℚ) :
    ((l.map (fun sm => sm.apply_calibration factor)).map
        SubjectMarks.collect).flatten =
      ((l.map SubjectMarks.collect).flatten).map (fun c => min 1 (c * factor)) := by
  induction l with
  | nil => rfl
  | cons a t ih =>
      simp only [List.map_cons, List.flatten_cons, List.map_append,
        subjectMarks_collect_apply, ih]

/-- Collection after rescaling a whole document: exactly the collected
list, each entry capped-rescaled. -/
theorem collect_apply_calibration (d : MarksheetExtractionResponse)
    (factor : ℚ) :
    (d.apply_calibration factor).collect =
      d.collect.map (fun c => min 1 (c * factor)) := by
  simp only [MarksheetExtractionResponse.collect,
    MarksheetExtractionResponse.apply_calibration,
    candidateDetails_collect_apply, overallResult_collect_apply,
    issueDetails_collect_apply, List.map_append, flatten_collect_apply]

/-- The calibration factor computed past warm-up is nonnegative whenever
the history entries are nonnegative. -/
theorem factor_nonneg (history : List ℚ) (avg : ℚ)
    (hh : ∀ x ∈ history, 0 ≤ x) :
    0 ≤ (if avg > 0 then meanQ (takeLast 50 history) / avg else 1) := by
  split_ifs with havg
  · have hsum : 0 ≤ (takeLast 50 history).sum := by
      apply List.sum_nonneg
      intro x hx
      exact hh x (List.mem_of_mem_drop hx)
    have hlen : (0 : ℚ) ≤ ((takeLast 50 history).length : ℚ) := by positivity
    exact div_nonneg (div_nonneg hsum hlen) (le_of_lt havg)
  · norm_num

/-- C3: for documents whose confidences sit in `[0,1]` (which pydantic
validation guarantees) and histories of nonnegative observations (which
collected confidences always are), every confidence in the document
returned by `calibrate_confidence` lies in the closed interval `[0,1]`:
rescaled values are capped at 1 and never driven below 0. -/
theorem calibrate_confidence_bounds (history : List ℚ)
    (d : MarksheetExtractionResponse)
    (hd : ∀ c ∈ d.collect, 0 ≤ c ∧ c ≤ 1)
    (hh : ∀ x ∈ history, 0 ≤ x) :
    ∀ c ∈ ((calibrate_confidence history d).doc).collect, 0 ≤ c ∧ c ≤ 1 := by
  by_cases hE : d.collect.isEmpty
  · simpa [calibrate_confidence, hE] using hd
  · by_cases hl : history.length > 10
    · intro c hc
      simp only [calibrate_confidence, hE, hl, if_true, if_false,
        Bool.false_eq_true, reduceIte] at hc
      rw [collect_apply_calibration] at hc
      obtain ⟨c0, hc0, rfl⟩ := List.mem_map.mp hc
      have hf := factor_nonneg history (meanQ d.collect) hh
      refine ⟨le_min (by norm_num) (mul_nonneg (hd c0 hc0).1 hf), min_le_left _ _⟩
    · simp only [calibrate_confidence, hE, hl, Bool.false_eq_true, reduceIte]
      exact hd

/-- Witness for C3: history of eleven 0.5 entries, one confidence 0.8;
the rescaled confidence `0.8 * 0.625 = 0.5` is in bounds. -/
theorem calibrate_confidence_bounds_witness :
    0 ≤ ((4 : ℚ)/5 * ((1/2) / (4/5))) ∧ ((4 : ℚ)/5 * ((1/2) / (4/5))) ≤ 1 := by
  have h := calibrate_confidence_bounds hist11 (sampleDoc (4/5))
    (by intro c hc; rw [show (sampleDoc (4/5 : ℚ)).collect = [4/5] from rfl] at hc;
        simp at hc; subst hc; norm_num)
    (by intro x hx; rw [hist11] at hx; simp at hx; subst hx; norm_num)
  have hmem : (4 : ℚ)/5 * ((1/2) / (4/5)) ∈
      ((calibrate_confidence hist11 (sampleDoc (4/5))).doc).collect := by
    have hco : (sampleDoc (4/5 : ℚ)).collect = [4/5] := rfl
    have hmean : meanQ [(4/5 : ℚ)] = 4/5 := by norm_num [meanQ]
    have hhist : meanQ (takeLast 50 hist11) = 1/2 := by
      norm_num [takeLast, hist11, meanQ, List.sum_replicate, nsmul_eq_mul]
    have hlen : hist11.length = 11 := by norm_num [hist11]
    simp only [calibrate_confidence, hco, hmean, hhist, hlen]
    norm_num [collect_apply_calibration, hco]
  exact h _ hmem

/-- One calibration step never grows the history beyond 1000. -/
theorem step_length_le (history : List ℚ) (d : MarksheetExtractionResponse)
    (hh : history.length ≤ 1000) :
    ((calibrate_confidence history d).history).length ≤ 1000 := by
  by_cases hE : d.collect.isEmpty
  · simpa [calibrate_confidence, hE]
  · by_cases hl : history.length > 10 <;>
      · simp only [calibrate_confidence, hE, hl, Bool.false_eq_true, reduceIte,
          updateHistory, takeLast]
        split_ifs with ht <;>
          simp only [List.length_drop, List.length_append] at ht ⊢ <;> omega

/-- C4: starting from the empty history, the history length never exceeds
1000 after any sequence of calls; and a call that collected a non-empty
list appends exactly those pre-rescale values to the end of the history,
truncating to the most recent 1000 entries (dropping from the front) when
the length would exceed 1000. -/
theorem history_capped_fifo :
    (∀ docs : List MarksheetExtractionResponse,
      (runHistory docs).length ≤ 1000) ∧
    (∀ (history : List ℚ) (d : MarksheetExtractionResponse), d.collect ≠ [] →
      (calibrate_confidence history d).history =
        if (history ++ d.collect).length > 1000
        then (history ++ d.collect).drop ((history ++ d.collect).length - 1000)
        else history ++ d.collect) := by
  constructor
  · intro docs
    have aux : ∀ (ds : List MarksheetExtractionResponse) (h : List ℚ),
        h.length ≤ 1000 →
        (ds.foldl (fun h d => (calibrate_confidence h d).history) h).length ≤ 1000 := by
      intro ds
      induction ds with
      | nil => intro h hh; simpa
      | cons d rest ih => intro h hh; exact ih _ (step_length_le h d hh)
    simpa [runHistory] using aux docs [] (by norm_num)
  · intro history d hne
    have hE : ¬ d.collect.isEmpty := by simpa using hne
    by_cases hl : history.length > 10 <;>
      simp [calibrate_confidence, hE, hl, updateHistory, takeLast]

/-- Witness for C4: a one-document run stays within the cap, and a call on
the empty history with one collected value extends the history by exactly
that value. -/
theorem history_capped_fifo_witness :
    (runHistory [sampleDoc (9/10)]).length ≤ 1000 ∧
    (calibrate_confidence [] (sampleDoc (9/10))).history =
      (if (([] : List ℚ) ++ (sampleDoc (9/10)).collect).length > 1000
       then (([] : List ℚ) ++ (sampleDoc (9/10)).collect).drop
         ((([] : List ℚ) ++ (sampleDoc (9/10)).collect).length - 1000)
       else ([] : List ℚ) ++ (sampleDoc (9/10)).collect) :=
  ⟨history_capped_fifo.1 [sampleDoc (9/10)],
   history_capped_fifo.2 [] (sampleDoc (9/10)) (by decide)⟩

/-! ### Field validation (C10) -/

/-- Present field records of one optional slot. -/
def optField (f : Option ExtractedField) : List ExtractedField := f.toList

/-- Present field records of the candidate-details section. -/
def CandidateDetails.fieldRecords (cd : CandidateDetails) :
    List ExtractedField :=
  optField cd.name ++ optField cd.father_name ++ optField cd.mother_name ++
  optField cd.roll_number ++ optField cd.registration_number ++
  optField cd.date_of_birth ++ optField cd.exam_year ++
  optField cd.board_university ++ optField cd.institution

/-- Present field records of one subject-marks group. -/
def SubjectMarks.fieldRecords (sm : SubjectMarks) : List ExtractedField :=
  [sm.subject] ++ optField sm.max_marks ++ optField sm.max_credits ++
  optField sm.obtained_marks ++ optField sm.obtained_credits ++
  optField sm.grade

/-- Present field records of the overall-result section. -/
def OverallResult.fieldRecords (o : OverallResult) : List ExtractedField :=
  optField o.total_marks ++ optField o.max_total_marks ++
  optField o.percentage ++ optField o.cgpa ++ optField o.grade ++
  optField o.division ++ optField o.result_status

/-- Present field records of the issue-details section. -/
def IssueDetails.fieldRecords (i : IssueDetails) : List ExtractedField :=
  optField i.issue_date ++ optField i.issue_place

/-- Every field record reachable in a document, in traversal order. -/
def MarksheetExtractionResponse.fieldRecords
    (d : MarksheetExtractionResponse) : List ExtractedField :=
  d.candidate_details.fieldRecords ++
  (d.subject_marks.map SubjectMarks.fieldRecords).flatten ++
  d.overall_result.fieldRecords ++ d.issue_details.fieldRecords

/-- One optional slot's collected confidences are its present records'
confidences. -/
theorem optConf_eq_map (f : Option ExtractedField) :
    optConf f = (optField f).map ExtractedField.confidence := by
  cases f <;> rfl

/-- Per-group version of the records/confidences correspondence. -/
theorem flatten_collect_eq_fieldRecords (l : List SubjectMarks) :
    (l.map SubjectMarks.collect).flatten =
      ((l.map SubjectMarks.fieldRecords).flatten).map
        ExtractedField.confidence := by
  induction l with
  | nil => rfl
  | cons a t ih =>
      simp [SubjectMarks.collect, SubjectMarks.fieldRecords, optConf_eq_map, ih]

/-- The collected confidences are exactly the confidences of the reachable
field records, in order. -/
theorem collect_eq_fieldRecords_map (d : MarksheetExtractionResponse) :
    d.collect = d.fieldRecords.map ExtractedField.confidence := by
  simp only [MarksheetExtractionResponse.collect,
    MarksheetExtractionResponse.fieldRecords, CandidateDetails.collect,
    CandidateDetails.fieldRecords, OverallResult.collect,
    OverallResult.fieldRecords, IssueDetails.collect,
    IssueDetails.fieldRecords, optConf_eq_map, List.map_append,
    flatten_collect_eq_fieldRecords]

/-- C10: pydantic construction of a field record fails exactly when the
supplied confidence lies outside `[0,1]` (the confidence itself is a
required, non-optional field of `ExtractedField`); consequently a document
whose reachable field records all passed validation feeds only confidences
inside `[0,1]` into calibration. -/
theorem field_validation_bounds :
    (∀ (v : FieldValue) (c : ℚ) (t : FieldType) (bb : Option BoundingBox),
      ExtractedField.validate v c t bb = none ↔ (c < 0 ∨ 1 < c)) ∧
    (∀ d : MarksheetExtractionResponse,
      (∀ f ∈ d.fieldRecords,
        ExtractedField.validate f.value f.confidence f.field_type
          f.bounding_box = some f) →
      ∀ x ∈ d.collect, 0 ≤ x ∧ x ≤ 1) := by
  constructor
  · intro v c t bb
    unfold ExtractedField.validate
    split_ifs with h
    · simp only [reduceCtorEq, false_iff]
      push_neg
      exact ⟨h.1, h.2⟩
    · simp only [true_iff]
      by_contra hcon
      push_neg at hcon
      exact h ⟨hcon.1, hcon.2⟩
  · intro d hval x hx
    rw [collect_eq_fieldRecords_map] at hx
    obtain ⟨f, hf, rfl⟩ := List.mem_map.mp hx
    have := hval f hf
    unfold ExtractedField.validate at this
    split_ifs at this with h
    exact h

/-- Witness for C10: a confidence of 3/2 is rejected, and the one-field
document with confidence 9/10 feeds only in-bounds values. -/
theorem field_validation_bounds_witness :
    (ExtractedField.validate FieldValue.null (3/2) FieldType.STRING none =
      none ↔ ((3:ℚ)/2 < 0 ∨ 1 < (3:ℚ)/2)) ∧
    (0 ≤ (9 : ℚ)/10 ∧ (9 : ℚ)/10 ≤ 1) := by
  constructor
  · exact field_validation_bounds.1 FieldValue.null (3/2) FieldType.STRING none
  · refine field_validation_bounds.2 (sampleDoc (9/10)) ?_ (9/10) ?_
    · intro f hf
      rw [show (sampleDoc (9/10 : ℚ)).fieldRecords = [sampleField (9/10)] from rfl]
        at hf
      simp at hf
      subst hf
      show ExtractedField.validate (FieldValue.str "A") (9/10) FieldType.STRING
        none = some (sampleField (9/10))
      rw [ExtractedField.validate, if_pos (by norm_num)]
      rfl
    · rw [show (sampleDoc (9/10 : ℚ)).collect = [9/10] from rfl]
      simp

/-! ### Claim theorems: the HTTP layer -/

/-- C8: the claimed behaviour — oversized payload rejected with a 4xx
client error — is the evident intent (the endpoint itself raises
`HTTPException(400)` for this case, and the repository's own test
`test_extract_marksheet_large_file` asserts status 400), but the code
slips: that exception is raised inside the try block, `HTTPException` is
not a `ValueError`, so the blanket `except Exception` handler catches it
and re-raises HTTP 500.  Evaluated at a .jpg upload one byte over the
10 MB limit: the endpoint returns a 500 server error — not a client
error — though still before the external pipeline is reached. -/
theorem oversized_returns_server_error :
    extract_marksheet [] bigFile false = (Except.error 500, false) ∧
    isClientError 500 = false := by
  constructor
  · simp [extract_marksheet, bigFile, validate_file_size, ALLOWED_EXTENSIONS,
      MAX_FILE_SIZE]
  · rfl

/-- Placeholders plus passed-validation files partition the input. -/
theorem validateLoop_length (files : List UploadFile) :
    ((validateLoop files).1).length + ((validateLoop files).2.2).length =
      files.length := by
  induction files with
  | nil => rfl
  | cons f rest ih =>
      by_cases h1 : f.extension ∈ ALLOWED_EXTENSIONS
      · by_cases h2 : validate_file_size f.size MAX_FILE_SIZE <;>
          · simp [validateLoop, h1, h2]
            omega
      · simp [validateLoop, h1]
        omega

/-- The extractor's batch loop yields one result per input file. -/
theorem batch_extract_length (history : List ℚ) (files : List UploadFile) :
    ((batch_extract history files).1).length = files.length := by
  induction files generalizing history with
  | nil => rfl
  | cons f rest ih =>
      cases h : f.model_doc <;> simp [batch_extract, h, ih]

/-- Metadata enrichment does not change the number of results. -/
theorem tagResults_length (files valids : List UploadFile) (ibb : Bool)
    (rs : List MarksheetExtractionResponse) :
    (tagResults files valids ibb rs).length = rs.length := by
  simp [tagResults]

/-- Every validation placeholder carries the failure marker. -/
theorem validation_placeholder_failed (f : UploadFile) (err : String) :
    isFailedResult (batch_validation_error f err) = true := rfl

/-- Everything the validation loop emits carries the failure marker. -/
theorem validateLoop_failures_failed (files : List UploadFile) :
    ∀ r ∈ (validateLoop files).1, isFailedResult r = true := by
  induction files with
  | nil => intro r hr; simp [validateLoop] at hr
  | cons f rest ih =>
      intro r hr
      by_cases h1 : f.extension ∈ ALLOWED_EXTENSIONS
      · by_cases h2 : validate_file_size f.size MAX_FILE_SIZE
        · simp only [validateLoop] at hr
          rw [if_neg (by simpa using h1), if_neg (by simpa using h2)] at hr
          exact ih r hr
        · simp only [validateLoop] at hr
          rw [if_neg (by simpa using h1), if_pos (by simpa using h2)] at hr
          rcases List.mem_cons.mp hr with rfl | hr
          · exact validation_placeholder_failed f _
          · exact ih r hr
      · simp only [validateLoop] at hr
        rw [if_pos (by simpa using h1)] at hr
        rcases List.mem_cons.mp hr with rfl | hr
        · exact validation_placeholder_failed f _
        · exact ih r hr

/-- C6 counterexample: in the claim's own scenario — three files, the
second with an unsupported extension — the endpoint reports 3 results,
successful = 2, failed = 1, but the failure placeholder sits at position
0, not position 1: result order does not match input order. -/
theorem batch_order_counterexample :
    scenarioOut.results.length = 3 ∧ scenarioOut.successful = 2 ∧
    scenarioOut.failed = 1 ∧
    isFailedResult (scenarioOut.results.getD 1 (error_response "none")) = false ∧
    isFailedResult (scenarioOut.results.getD 0 (error_response "none")) = true := by
  decide

/-- C6 amended: the result sequence has the same length as the input, but
input order is not preserved when validation failures occur: all
validation-failure placeholders come first (in input order among
themselves, each carrying the failure marker), followed by the batch
results of the files that passed validation, in input order. -/
theorem batch_placeholders_first (history : List ℚ) (files : List UploadFile)
    (ibb : Bool) (hlen : files.length ≤ 10) :
    batch_extract_marksheets history files ibb = Except.ok
      ({ results := (validateLoop files).1 ++
            tagResults files (validateLoop files).2.2 ibb
              (batch_extract history (validateLoop files).2.2).1
         total_processed := files.length
         successful := ((tagResults files (validateLoop files).2.2 ibb
              (batch_extract history (validateLoop files).2.2).1).filter
                (fun r => ¬ isFailedResult r)).length
         failed := (validateLoop files).2.1 +
            ((tagResults files (validateLoop files).2.2 ibb
              (batch_extract history (validateLoop files).2.2).1).filter
                (fun r => isFailedResult r)).length },
       (batch_extract history (validateLoop files).2.2).2) ∧
    ((validateLoop files).1 ++
       tagResults files (validateLoop files).2.2 ibb
         (batch_extract history (validateLoop files).2.2).1).length =
      files.length ∧
    (∀ r ∈ (validateLoop files).1, isFailedResult r = true) := by
  refine ⟨?_, ?_, validateLoop_failures_failed files⟩
  · have h10 : ¬ files.length > 10 := by omega
    by_cases hV : (validateLoop files).2.2.isEmpty
    · have hnil : (validateLoop files).2.2 = [] := List.isEmpty_iff.mp hV
      simp [batch_extract_marksheets, h10, hV, hnil, batch_extract, tagResults]
    · simp [batch_extract_marksheets, h10, hV]
  · rw [List.length_append, tagResults_length, batch_extract_length]
    have := validateLoop_length files
    omega

/-- Witness for the amended C6 at the three-file scenario. -/
theorem batch_placeholders_first_witness :
    batch_extract_marksheets [] scenarioFiles false = Except.ok
      ({ results := (validateLoop scenarioFiles).1 ++
            tagResults scenarioFiles (validateLoop scenarioFiles).2.2 false
              (batch_extract [] (validateLoop scenarioFiles).2.2).1
         total_processed := scenarioFiles.length
         successful := ((tagResults scenarioFiles (validateLoop scenarioFiles).2.2 false
              (batch_extract [] (validateLoop scenarioFiles).2.2).1).filter
                (fun r => ¬ isFailedResult r)).length
         failed := (validateLoop scenarioFiles).2.1 +
            ((tagResults scenarioFiles (validateLoop scenarioFiles).2.2 false
              (batch_extract [] (validateLoop scenarioFiles).2.2).1).filter
                (fun r => isFailedResult r)).length },
       (batch_extract [] (validateLoop scenarioFiles).2.2).2) ∧
    ((validateLoop scenarioFiles).1 ++
       tagResults scenarioFiles (validateLoop scenarioFiles).2.2 false
         (batch_extract [] (validateLoop scenarioFiles).2.2).1).length =
      scenarioFiles.length ∧
    (∀ r ∈ (validateLoop scenarioFiles).1, isFailedResult r = true) :=
  batch_placeholders_first [] scenarioFiles false (by decide)

end Marksheet
